import Mathlib

/-!
Verification of the navigation interaction state machine of the
component-factory repository, as a shallow embedding in Lean 4.

The embedding follows the source files:
  src/features/Navigation/DesktopNavigation.tsx   (desktop dropdown controller)
  src/features/Navigation/NavigationContainer.tsx (container variant)
  src/features/Navigation/components/DesktopDropdown.tsx (dropdown rendering)
  src/features/Navigation/MobileNavigation.tsx    (mobile drawer controller)
  src/features/Navigation/components/NavBar.tsx   (DesktopNavItemData)

React useState is modelled as explicit record state; setTimeout-based
deferred work is modelled as explicit delayed-action data carrying the
delay in milliseconds; onNavigate calls are collected as an output list.
-/

/-- Top-level navigation entry, from components/NavBar.tsx
(interface DesktopNavItemData: id, label, hasDropdown, url?). -/
structure DesktopNavItemData where
  id : String
  label : String
  hasDropdown : Bool
  url : Option String := none
deriving DecidableEq, Repr

/-- JS truthiness-plus-placeholder test used by the click handlers:
the source writes item.url && item.url !== Hash, where the empty
string is falsy in JS. -/
def isRealUrl : Option String → Bool
  | some u => u ≠ "" && u ≠ "#"
  | none => false

/-- Lowercasing as performed by the JS toLowerCase calls of the
handlers, mapped character-wise over the string data; it agrees with
the JS call on the ASCII labels this component works with, and unlike
the library toLower it evaluates inside the kernel. -/
def toLowerJS (s : String) : String := String.mk (s.data.map Char.toLower)

/-- Mutable state of the DesktopNavigation controller
(DesktopNavigation.tsx lines 37-43): activeDropdown holds the lowercase
label of the open dropdown or the empty string, the two hover flags
track mouse position, and closeTimer records whether the hover-intent
close timeout (mouseLeaveTimeoutRef) is pending. -/
structure DState where
  activeDropdown : String
  isHoveringNavItem : Bool
  isHoveringDropdown : Bool
  closeTimer : Bool
deriving DecidableEq, Repr

/-- Initial state of the controller at mount: useState defaults, no
pending timer. -/
def ddInit : DState :=
  { activeDropdown := "", isHoveringNavItem := false,
    isHoveringDropdown := false, closeTimer := false }

/-- Deferred work scheduled with setTimeout by the desktop controller:
focusTrigger is the 50ms focus-return in closeDropdown (line 132),
navFocus is the 600ms navigate-then-refocus in handleDropdownItemClick
(lines 161-177). -/
inductive DDelayed where
  | focusTrigger (elemId : String)
  | navFocus (url : Option String) (triggerLabel : String)
deriving DecidableEq, Repr

/-- Result of one event-handler invocation on the desktop controller:
the next state, the onNavigate calls made synchronously, and the
delayed actions scheduled (delay in ms, action). -/
structure DOut where
  state : DState
  navCalls : List String
  delayed : List (Nat × DDelayed)
deriving DecidableEq, Repr

/-- Dropdown key computed by handleItemHover (line 81):
item.hasDropdown ? item.label.toLowerCase() : "". -/
def dropdownKeyOf (item : DesktopNavItemData) : String :=
  if item.hasDropdown then toLowerJS item.label else ""

/-- closeDropdown (DesktopNavigation.tsx lines 120-134): early return if
nothing is open; otherwise clear activeDropdown, resolve the
focus-return label (the JS expression returnFocusToLabel || currentActive
falls back on undefined or the falsy empty string), look the label up in
desktopMenuItems, and when found schedule a 50ms focus on the trigger
element id; a failed lookup schedules nothing. -/
def closeDropdown (items : List DesktopNavItemData) (s : DState)
    (returnFocusToLabel : Option String) : DOut :=
  if s.activeDropdown = "" then { state := s, navCalls := [], delayed := [] }
  else
    let focusLabel :=
      match returnFocusToLabel with
      | some l => if l ≠ "" then l else s.activeDropdown
      | none => s.activeDropdown
    let s' := { s with activeDropdown := "" }
    match items.find? (fun it => toLowerJS it.label == toLowerJS focusLabel) with
    | some it => { state := s', navCalls := [], delayed := [(50, .focusTrigger it.id)] }
    | none => { state := s', navCalls := [], delayed := [] }

/-- handleDesktopItemClick (lines 137-152): a plain entry first runs
closeDropdown() and then navigates when the url passes the truthiness
and placeholder test; a dropdown-owning entry toggles activeDropdown
between its lowercase label and the empty string and clears the close
timer. -/
def handleDesktopItemClick (items : List DesktopNavItemData) (s : DState)
    (item : DesktopNavItemData) : DOut :=
  if item.hasDropdown = false then
    let c := closeDropdown items s none
    let nav := if isRealUrl item.url then [item.url.getD ""] else []
    { state := c.state, navCalls := nav, delayed := c.delayed }
  else
    let lowerLabel := toLowerJS item.label
    let newActive := if s.activeDropdown = lowerLabel then "" else lowerLabel
    { state := { s with activeDropdown := newActive, closeTimer := false },
      navCalls := [], delayed := [] }

/-- Events dispatched to the desktop controller. Each constructor names
the handler it triggers in DesktopNavigation.tsx; timerFire is the
expiry of the hover-intent timeout armed by startCloseTimer. The
Enter/Space keyboard toggle (lines 191-210) performs the same state
update as the itemClick toggle branch; Escape and Tab reach
closeDropdown and are modelled by closeKey. -/
inductive DEvent where
  | itemHover (item : DesktopNavItemData)
  | itemLeave
  | itemFocus
  | itemBlur
  | dropdownEnter
  | dropdownLeave
  | itemClick (item : DesktopNavItemData)
  | dropdownItemClick (item : DesktopNavItemData)
  | clickOutside
  | closeKey (returnFocusToLabel : Option String)
  | timerFire

/-- One step of the desktop controller. Handlers translated line by
line: itemHover (78-83) sets the nav hover flag, cancels the timer and
opens the dropdown keyed by the hovered item; itemLeave (86-89) and
itemBlur (99-102) drop the flag and arm the timer via startCloseTimer;
itemFocus (92-96) and dropdownEnter (105-108) set a flag and cancel the
timer; dropdownLeave (111-114) drops the panel flag and arms the timer;
clickOutside (327-338) closes directly without focus return; timerFire
runs the startCloseTimer callback (62-67), which closes only when
neither hover flag is set at expiry. -/
def dstep (items : List DesktopNavItemData) (s : DState) : DEvent → DOut
  | .itemHover item =>
      { state := { s with isHoveringNavItem := true, closeTimer := false, activeDropdown := dropdownKeyOf item },
        navCalls := [], delayed := [] }
  | .itemLeave =>
      { state := { s with isHoveringNavItem := false, closeTimer := true },
        navCalls := [], delayed := [] }
  | .itemFocus =>
      { state := { s with isHoveringNavItem := true, closeTimer := false },
        navCalls := [], delayed := [] }
  | .itemBlur =>
      { state := { s with isHoveringNavItem := false, closeTimer := true },
        navCalls := [], delayed := [] }
  | .dropdownEnter =>
      { state := { s with isHoveringDropdown := true, closeTimer := false },
        navCalls := [], delayed := [] }
  | .dropdownLeave =>
      { state := { s with isHoveringDropdown := false, closeTimer := true },
        navCalls := [], delayed := [] }
  | .itemClick item => handleDesktopItemClick items s item
  | .dropdownItemClick item =>
      { state := { s with activeDropdown := "" },
        navCalls := [], delayed := [(600, .navFocus item.url s.activeDropdown)] }
  | .clickOutside =>
      if s.activeDropdown ≠ "" then
        { state := { s with activeDropdown := "" }, navCalls := [], delayed := [] }
      else { state := s, navCalls := [], delayed := [] }
  | .closeKey lbl => closeDropdown items s lbl
  | .timerFire =>
      if s.closeTimer then
        if s.isHoveringNavItem = false ∧ s.isHoveringDropdown = false then
          { state := { s with activeDropdown := "", closeTimer := false },
            navCalls := [], delayed := [] }
        else
          { state := { s with closeTimer := false }, navCalls := [], delayed := [] }
      else { state := s, navCalls := [], delayed := [] }

/-- Reachable states of the desktop controller: the mount state and
everything obtainable by dispatching events. -/
inductive dReach (items : List DesktopNavItemData) : DState → Prop where
  | init : dReach items ddInit
  | step {s : DState} (e : DEvent) :
      dReach items s → dReach items (dstep items s e).state

/-- Keys of the three dropdown panels in the dropdowns array
(DesktopNavigation.tsx lines 343-347). -/
def dropdownPanelKeys : List String := ["motorbikes", "scooter", "more"]

/-- Panels mounted by the render (lines 371-390): a panel renders
exactly when activeDropdown equals its key. -/
def mountedPanels (s : DState) : List String :=
  dropdownPanelKeys.filter (fun k => s.activeDropdown == k)

/-- Arrow keys handled on the top-level strip by handleItemKeyDown. -/
inductive StripArrowKey where
  | arrowLeft
  | arrowRight
deriving DecidableEq, Repr

/-- Focus target computed by the ArrowLeft/ArrowRight branches of
handleItemKeyDown (DesktopNavigation.tsx lines 184-236): currentIndex
is findIndex over desktopMenuItems by id (-1 when absent), the target
index is (currentIndex - 1 + length) % length resp.
(currentIndex + 1) % length, and the focus target is looked up in the
itemRefs array. An empty item list yields no target (the JS modulo by
zero is NaN and the ref lookup comes back undefined). -/
def handleItemKeyDownArrowTarget (items : List DesktopNavItemData)
    (item : DesktopNavItemData) (key : StripArrowKey) : Option Nat :=
  let n : Int := items.length
  if n = 0 then none
  else
    let currentIndex : Int :=
      match items.findIdx? (fun i => i.id == item.id) with
      | some k => (k : Int)
      | none => -1
    let idx : Int :=
      match key with
      | .arrowLeft => (currentIndex - 1 + n) % n
      | .arrowRight => (currentIndex + 1) % n
  some idx.toNat

/-- Dropdown content item, from components/DesktopDropdown.tsx
(DropdownItemBase with a type tag, optional image for model items and
optional numeric group for link items). -/
inductive ItemType where
  | model
  | link
deriving DecidableEq, Repr

/-- Union of the dropdown item shapes (ModelItem, LinkItem,
MoreLinkItem) of DesktopDropdown.tsx lines 7-13. -/
structure AnyDropdownItem where
  label : String
  url : Option String := none
  type : ItemType
  image : Option String := none
  group : Option Nat := none
deriving DecidableEq, Repr

/-- Filter applied by the more branch of renderDropdownContent
(DesktopDropdown.tsx line 142): keep items of type link whose group is
a number. -/
def moreFilter (items : List AnyDropdownItem) : List AnyDropdownItem :=
  items.filter (fun it => it.type == ItemType.link && it.group.isSome)

/-- One step of the reduce at DesktopDropdown.tsx line 143: push the
item onto the bucket of its group key, creating the bucket when
missing. The record of buckets is modelled as a function from group
keys to item lists. -/
def addToGroup (acc : Nat → List AnyDropdownItem) (it : AnyDropdownItem) :
    Nat → List AnyDropdownItem :=
  fun g => if it.group = some g then acc g ++ [it] else acc g

/-- groupedItems (DesktopDropdown.tsx line 143): the reduce over the
filtered more items. -/
def groupedItems (items : List AnyDropdownItem) : Nat → List AnyDropdownItem :=
  (moreFilter items).foldl addToGroup (fun _ => [])

/-- Lexicographic comparison of character lists by code point, the
order the default JS Array sort applies to the string forms of its
elements. -/
def charListLt : List Char → List Char → Bool
  | [], [] => false
  | [], _ :: _ => true
  | _ :: _, [] => false
  | a :: as, b :: bs => if a < b then true else if b < a then false else charListLt as bs

/-- Comparison used by the default JS Array sort at line 144: keys are
compared as decimal strings. -/
def jsKeyLt (a b : Nat) : Bool := charListLt (Nat.repr a).data (Nat.repr b).data

/-- Ordered insertion for the key sort. -/
def sortKeysInsert (x : Nat) : List Nat → List Nat
  | [] => [x]
  | y :: ys => if jsKeyLt x y then x :: y :: ys else y :: sortKeysInsert x ys

/-- Sort of the group keys as performed by
Object.keys(groupedItems).map(Number).sort() at line 144: the distinct
keys ordered by the default string comparison. -/
def sortKeys (l : List Nat) : List Nat := l.foldr sortKeysInsert []

/-- groupKeys (DesktopDropdown.tsx line 144): the distinct group keys
occurring among the filtered items, sorted. -/
def groupKeys (items : List AnyDropdownItem) : List Nat :=
  sortKeys ((moreFilter items).filterMap (fun it => it.group)).dedup

/-- Rendered groups of the more dropdown (lines 151-160): one rendered
column per group key, in key order, holding the bucket of that key. -/
def renderedMoreGroups (items : List AnyDropdownItem) :
    List (Nat × List AnyDropdownItem) :=
  (groupKeys items).map (fun g => (g, groupedItems items g))

/-- Placeholder columns appended at line 162:
Math.max(0, 2 - groupKeys.length). -/
def morePlaceholderCount (items : List AnyDropdownItem) : Int :=
  max 0 (2 - (groupKeys items).length)

/-- Icon hints of mobile menu items (MobileMenu.tsx line 11). -/
inductive MobileIcon where
  | right
  | topRight
  | more
deriving DecidableEq, Repr

/-- Style variants of mobile menu items (MobileMenu.tsx line 12). -/
inductive MobileVariant where
  | mobile
  | mobileChild
  | mobileSubItem
deriving DecidableEq, Repr

/-- Mobile menu item (interface MobileNavItemData, MobileMenu.tsx
lines 8-15); absent optional JS fields are none resp. false. -/
structure MobileNavItemData where
  label : String := ""
  hasChildren : Bool := false
  icon : Option MobileIcon := none
  variant : Option MobileVariant := none
  url : Option String := none
  back : Bool := false
deriving DecidableEq, Repr

/-- Shared mapping of model/link source items to mobile items: the
final return of getSubmenuItemsForCategory (MobileNavigation.tsx lines
238-240). -/
def mapSourceItems (src : List AnyDropdownItem) : List MobileNavItemData :=
  src.map (fun it =>
    { label := it.label, hasChildren := false,
      icon := if it.type == ItemType.model then some .right else some .topRight,
      variant := if it.type == ItemType.model then some .mobileChild else some .mobileSubItem,
      url := it.url })

/-- getSubmenuItemsForCategory (MobileNavigation.tsx lines 226-241):
dispatch on the lowercased category label; the more dataset maps with
the outward-link icon and child variant, the motorbikes and scooters
datasets map through the shared mapping, anything else yields the empty
list. -/
def getSubmenuItemsForCategory
    (motorbikesDropdownItems scootersDropdownItems moreDropdownItems : List AnyDropdownItem)
    (categoryLabel : String) : List MobileNavItemData :=
  let categoryLower := toLowerJS categoryLabel
  if categoryLower = "motorbikes" then mapSourceItems motorbikesDropdownItems
  else if categoryLower = "scooters" then mapSourceItems scootersDropdownItems
  else if categoryLower = "more" then
    moreDropdownItems.map (fun it =>
      { label := it.label, hasChildren := false, icon := some .topRight,
        variant := some .mobileChild, url := it.url })
  else []

/-- Mutable state of the MobileNavigation controller
(MobileNavigation.tsx lines 220-222). -/
structure MobileState where
  mobileMenuOpen : Bool
  activeSubmenu : String
  submenuItems : List MobileNavItemData
deriving DecidableEq, Repr

/-- Initial mobile state at mount. -/
def mobileInit : MobileState :=
  { mobileMenuOpen := false, activeSubmenu := "", submenuItems := [] }

/-- Deferred work of the mobile controller: the 300ms reset scheduled
by the leaf branch of handleMobileItemClick (clear activeSubmenu and
submenuItems, then navigate when the url is real). -/
inductive MobileDelayed where
  | resetAndNavigate (url : Option String)
deriving DecidableEq, Repr

/-- Result of one mobile event-handler invocation. -/
structure MobileOut where
  state : MobileState
  navCalls : List String
  delayed : List (Nat × MobileDelayed)
deriving DecidableEq, Repr

/-- Delay of the deferred reset in handleMobileItemClick
(MobileNavigation.tsx line 274, matching the exit animation). -/
def mobileCloseResetDelay : Nat := 300

/-- handleMobileItemClick (MobileNavigation.tsx lines 256-276): a back
item clears activeSubmenu only; an item with children computes the
mapped child list and enters it; otherwise the leaf branch closes the
drawer at once and schedules the 300ms reset-and-navigate. -/
def handleMobileItemClick
    (motorbikesDropdownItems scootersDropdownItems moreDropdownItems : List AnyDropdownItem)
    (s : MobileState) (item : MobileNavItemData) : MobileOut :=
  if item.back then
    { state := { s with activeSubmenu := "" }, navCalls := [], delayed := [] }
  else if item.hasChildren then
    let newSubmenuItems :=
      getSubmenuItemsForCategory motorbikesDropdownItems scootersDropdownItems
        moreDropdownItems item.label
    { state := { s with activeSubmenu := item.label, submenuItems := newSubmenuItems },
      navCalls := [], delayed := [] }
  else
    { state := { s with mobileMenuOpen := false }, navCalls := [],
      delayed := [(mobileCloseResetDelay, .resetAndNavigate item.url)] }

/-- Expiry of the deferred reset (MobileNavigation.tsx lines 270-274):
clear activeSubmenu and submenuItems, then call onNavigate when the url
passes the truthiness and placeholder test. -/
def runMobileDelayed (s : MobileState) : MobileDelayed → MobileState × List String
  | .resetAndNavigate url =>
      ({ s with activeSubmenu := "", submenuItems := [] },
       if isRealUrl url then [url.getD ""] else [])

/-- Timer-relevant state of the NavigationContainer controller: whether
mouseLeaveTimeoutRef holds a pending timeout. -/
structure ContainerTimerState where
  closeTimer : Bool
deriving DecidableEq, Repr

/-- Unmount cleanup of NavigationContainer (NavigationContainer.tsx
lines 215-221): clearTimeout on mouseLeaveTimeoutRef when present, so
no close timer survives unmount. -/
def containerUnmountCleanup (_s : ContainerTimerState) : ContainerTimerState :=
  { closeTimer := false }

/-- Combined unmount cleanups of DesktopNavigation: the itemRefs sync
effect (lines 53-55) has no cleanup and the outside-click effect
(lines 327-338) removes the mousedown listener only; no effect cleanup
calls clearTimeout on mouseLeaveTimeoutRef, so the modelled state is
returned with the pending-timer flag untouched. -/
def desktopUnmountCleanup (s : DState) : DState := s

/-- Concrete dropdown-owning entry of the click scenario of the
testable-properties section. -/
def entryA : DesktopNavItemData :=
  { id := "a", label := "Motorbikes", hasDropdown := true }

/-- Concrete plain-link entry of the click scenario. -/
def entryB : DesktopNavItemData :=
  { id := "b", label := "Contact", hasDropdown := false, url := some "#contact" }

/-- Entry list of the click scenario. -/
def scenarioEntries : List DesktopNavItemData := [entryA, entryB]

/-- Concrete second dropdown owner, used to witness the hover claim. -/
def entryS : DesktopNavItemData :=
  { id := "s", label := "Scooters", hasDropdown := true }

/-- Concrete mobile leaf whose url is the placeholder hash. -/
def placeholderLeaf : MobileNavItemData :=
  { label := "Placeholder", url := some "#" }

/-- Concrete mobile drawer state: open, inside the Motorbikes submenu. -/
def drawerOpenState : MobileState :=
  { mobileMenuOpen := true, activeSubmenu := "Motorbikes",
    submenuItems := [placeholderLeaf] }

/-- Concrete mobile leaf with a real url. -/
def realLeaf : MobileNavItemData := { label := "Leaf", url := some "/leaf" }

/-- Concrete desktop state with the motorbikes dropdown open. -/
def lookupMissState : DState :=
  { activeDropdown := "motorbikes", isHoveringNavItem := false,
    isHoveringDropdown := false, closeTimer := false }

/-- Concrete model item of the motorbikes dataset. -/
def modelM1 : AnyDropdownItem := { label := "M1", type := .model, url := some "/m1" }

/-- Image of modelM1 under the category-to-submenu mapping. -/
def mappedM1 : MobileNavItemData :=
  { label := "M1", hasChildren := false, icon := some .right,
    variant := some .mobileChild, url := some "/m1" }

/-- Helper to build a link item of the more dataset. -/
def mkMoreLink (l : String) (g : Nat) : AnyDropdownItem :=
  { label := l, type := .link, group := some g, url := some ("/" ++ l) }

/-- Concrete more dataset of eight link items, four of group zero and
four of group one, interleaved. -/
def moreScenarioItems : List AnyDropdownItem :=
  [mkMoreLink "a" 0, mkMoreLink "b" 1, mkMoreLink "c" 0, mkMoreLink "d" 1,
   mkMoreLink "e" 0, mkMoreLink "f" 1, mkMoreLink "g" 0, mkMoreLink "h" 1]

/-- The filtered list of mounted panels is a nodup sublist whose
elements all equal the active key, hence has at most one element. -/
lemma mountedPanels_length_le_one (t : DState) : (mountedPanels t).length ≤ 1 := by
  have hnd : (mountedPanels t).Nodup :=
    (List.filter_sublist _).nodup (by decide)
  have hmem : ∀ x ∈ mountedPanels t, x = t.activeDropdown := by
    intro x hx
    have hpx := List.of_mem_filter hx
    have : t.activeDropdown = x := by simpa using hpx
    exact this.symm
  match hm : mountedPanels t with
  | [] => simp
  | [x] => simp
  | x :: y :: r =>
    rw [hm] at hnd hmem
    have hx := hmem x (by simp)
    have hy := hmem y (by simp)
    have hxy : x ≠ y := by
      have := (List.nodup_cons.mp hnd).1
      intro h
      exact this (h ▸ List.mem_cons_self y r)
    exact absurd (hx.trans hy.symm) hxy

/-- C1: hovering A then B (two distinct dropdown owners) leaves the
dropdown keyed by B active; hovering an owner opens its key in the same
synchronous step with the close timer cancelled and nothing deferred;
hovering a non-owner clears the key; and in any state at most one panel
of the dropdowns array is mounted. -/
theorem hover_single_selection (items : List DesktopNavItemData) (s : DState)
    (A B : DesktopNavItemData) (hA : A.hasDropdown = true) (hB : B.hasDropdown = true)
    (hAB : A ≠ B) :
    ((dstep items (dstep items s (.itemHover A)).state (.itemHover B)).state.activeDropdown
        = dropdownKeyOf B) ∧
    ((dstep items s (.itemHover A)).state.activeDropdown = dropdownKeyOf A) ∧
    ((dstep items s (.itemHover A)).state.closeTimer = false) ∧
    ((dstep items s (.itemHover A)).delayed = []) ∧
    (∀ C : DesktopNavItemData, C.hasDropdown = false →
      (dstep items s (.itemHover C)).state.activeDropdown = "") ∧
    (∀ t : DState, (mountedPanels t).length ≤ 1) := by
  refine ⟨by simp [dstep], by simp [dstep], by simp [dstep], by simp [dstep], ?_, ?_⟩
  · intro C hC
    simp [dstep, dropdownKeyOf, hC]
  · exact mountedPanels_length_le_one

/-- Witness for the hover claim at the concrete entries Motorbikes and
Scooters from the empty hover-free start state. -/
theorem hover_single_selection_witness :
    (dstep ([] : List DesktopNavItemData)
      (dstep [] ddInit (.itemHover entryA)).state
      (.itemHover entryS)).state.activeDropdown = dropdownKeyOf entryS :=
  (hover_single_selection [] ddInit entryA entryS rfl rfl (by decide)).1

/-- C2: leaving a trigger arms the close timer; entering the panel
within the window cancels it and the subsequent expiry leaves the
active dropdown untouched, as does hovering back onto any trigger; and
timer expiry changes the active dropdown only when the timer was
pending with both hover flags false, in which case it closes. -/
theorem close_timer_debounce (items : List DesktopNavItemData) (s : DState) :
    ((dstep items s .itemLeave).state.closeTimer = true) ∧
    ((dstep items (dstep items s .itemLeave).state .dropdownEnter).state.closeTimer = false) ∧
    ((dstep items (dstep items s .itemLeave).state .dropdownEnter).state.activeDropdown
        = s.activeDropdown) ∧
    ((dstep items (dstep items (dstep items s .itemLeave).state .dropdownEnter).state
        .timerFire).state.activeDropdown = s.activeDropdown) ∧
    (∀ A : DesktopNavItemData,
      (dstep items (dstep items s .itemLeave).state (.itemHover A)).state.closeTimer = false) ∧
    (∀ t : DState, (dstep items t .timerFire).state.activeDropdown ≠ t.activeDropdown →
      t.closeTimer = true ∧ t.isHoveringNavItem = false ∧ t.isHoveringDropdown = false) ∧
    (∀ t : DState, t.closeTimer = true → t.isHoveringNavItem = false →
      t.isHoveringDropdown = false →
      (dstep items t .timerFire).state.activeDropdown = "") := by
  refine ⟨by simp [dstep], by simp [dstep], by simp [dstep], by simp [dstep],
    fun A => by simp [dstep], ?_, ?_⟩
  · intro t hne
    by_cases hp : t.closeTimer = true
    · by_cases hflags : t.isHoveringNavItem = false ∧ t.isHoveringDropdown = false
      · exact ⟨hp, hflags.1, hflags.2⟩
      · refine absurd ?_ hne
        simp [dstep, hp, if_neg hflags]
    · refine absurd ?_ hne
      simp [dstep, hp]
  · intro t hp hn hd
    simp [dstep, hp, hn, hd]

/-- Witness for the debounce claim: the armed timer from the start
state, and a concrete pending no-hover state that expiry closes. -/
theorem close_timer_debounce_witness :
    ((dstep ([] : List DesktopNavItemData) ddInit .itemLeave).state.closeTimer = true) ∧
    ((dstep ([] : List DesktopNavItemData)
      { activeDropdown := "motorbikes", isHoveringNavItem := false,
        isHoveringDropdown := false, closeTimer := true }
      .timerFire).state.activeDropdown = "") :=
  ⟨(close_timer_debounce [] ddInit).1,
   (close_timer_debounce [] ddInit).2.2.2.2.2.2 _ rfl rfl rfl⟩

/-- C3: from a state with no dropdown open, clicking Contact navigates
exactly once to its url and keeps the active key empty, clicking
Motorbikes opens its key (cancelling the timer), and clicking it again
closes (also cancelling the timer). -/
theorem click_scenario (s : DState) (hopen : s.activeDropdown = "") :
    ((dstep scenarioEntries s (.itemClick entryB)).navCalls = ["#contact"]) ∧
    ((dstep scenarioEntries s (.itemClick entryB)).state.activeDropdown = "") ∧
    ((dstep scenarioEntries s (.itemClick entryA)).state.activeDropdown = dropdownKeyOf entryA) ∧
    ((dstep scenarioEntries s (.itemClick entryA)).state.closeTimer = false) ∧
    ((dstep scenarioEntries (dstep scenarioEntries s (.itemClick entryA)).state
        (.itemClick entryA)).state.activeDropdown = "") ∧
    ((dstep scenarioEntries (dstep scenarioEntries s (.itemClick entryA)).state
        (.itemClick entryA)).state.closeTimer = false) := by
  obtain ⟨a, hn, hd, ct⟩ := s
  cases hopen
  refine ⟨?_, ?_, ?_, ?_, ?_, ?_⟩ <;>
    simp [dstep, handleDesktopItemClick, closeDropdown, entryA, entryB, dropdownKeyOf,
      isRealUrl]

/-- Witness for the click scenario at the start state. -/
theorem click_scenario_witness :
    ((dstep scenarioEntries ddInit (.itemClick entryB)).navCalls = ["#contact"]) ∧
    ((dstep scenarioEntries ddInit (.itemClick entryA)).state.activeDropdown
        = dropdownKeyOf entryA) :=
  ⟨(click_scenario ddInit rfl).1, (click_scenario ddInit rfl).2.2.1⟩

/-- C4: for an entry found at index i of a non-empty strip, ArrowRight
targets index (i+1) mod n and ArrowLeft index (i+n-1) mod n; on the
last entry ArrowRight wraps to the first and on the first entry
ArrowLeft wraps to the last. -/
theorem arrow_key_circular_wrap (items : List DesktopNavItemData)
    (item : DesktopNavItemData) (i : Nat)
    (hfind : items.findIdx? (fun x => x.id == item.id) = some i)
    (hlt : i < items.length) :
    (handleItemKeyDownArrowTarget items item .arrowRight
        = some ((i + 1) % items.length)) ∧
    (handleItemKeyDownArrowTarget items item .arrowLeft
        = some ((i + items.length - 1) % items.length)) ∧
    (i = items.length - 1 →
      handleItemKeyDownArrowTarget items item .arrowRight = some 0) ∧
    (i = 0 →
      handleItemKeyDownArrowTarget items item .arrowLeft
        = some (items.length - 1)) := by
  have hn : items.length ≠ 0 := by omega
  have hnz : ((items.length : Int)) ≠ 0 := by exact_mod_cast hn
  have hright : handleItemKeyDownArrowTarget items item .arrowRight
      = some ((i + 1) % items.length) := by
    unfold handleItemKeyDownArrowTarget
    rw [if_neg hnz, hfind]
    have hcast : ((i : Int) + 1) % (items.length : Int)
        = (((i + 1) % items.length : Nat) : Int) := by push_cast; ring_nf
    simp only [hcast, Int.toNat_natCast]
  have hleft : handleItemKeyDownArrowTarget items item .arrowLeft
      = some ((i + items.length - 1) % items.length) := by
    unfold handleItemKeyDownArrowTarget
    rw [if_neg hnz, hfind]
    have hsum : (i : Int) - 1 + (items.length : Int)
        = ((i + items.length - 1 : Nat) : Int) := by omega
    have hcast : ((i : Int) - 1 + (items.length : Int)) % (items.length : Int)
        = (((i + items.length - 1) % items.length : Nat) : Int) := by
      rw [hsum]; push_cast; ring_nf
    simp only [hcast, Int.toNat_natCast]
  refine ⟨hright, hleft, ?_, ?_⟩
  · intro hi
    rw [hright, hi]
    congr 1
    have : items.length - 1 + 1 = items.length := by omega
    rw [this, Nat.mod_self]
  · intro hi
    rw [hleft, hi]
    congr 1
    have h1 : 0 + items.length - 1 = items.length - 1 := by omega
    rw [h1, Nat.mod_eq_of_lt (by omega)]

/-- Witness for the wrap claim: ArrowRight on the last scenario entry
targets index zero. -/
theorem arrow_key_circular_wrap_witness :
    handleItemKeyDownArrowTarget scenarioEntries entryB .arrowRight = some 0 :=
  (arrow_key_circular_wrap scenarioEntries entryB 1 (by decide) (by decide)).2.2.1 (by decide)

/-- Unrolling the reduce of the more branch: the bucket of key g is the
starting bucket followed by the items of group g in input order. -/
lemma foldl_addToGroup (l : List AnyDropdownItem) (acc : Nat → List AnyDropdownItem) (g : Nat) :
    (l.foldl addToGroup acc) g = acc g ++ l.filter (fun it => it.group == some g) := by
  induction l generalizing acc with
  | nil => simp
  | cons x xs ih =>
    rw [List.foldl_cons, ih]
    by_cases hx : x.group = some g
    · simp [addToGroup, hx, List.filter_cons]
    · simp [addToGroup, hx, List.filter_cons]

/-- The reduce bucket of key g equals the order-preserving filter of
the filtered more items to group g. -/
lemma groupedItems_eq_filter (items : List AnyDropdownItem) (g : Nat) :
    groupedItems items g = (moreFilter items).filter (fun it => it.group == some g) := by
  unfold groupedItems
  rw [foldl_addToGroup]
  simp

/-- A duplicate-free list over the keys zero and one containing both is
one of the two enumerations. -/
lemma nodup_two_keys (d : List Nat) (hnd : d.Nodup) (hsub : ∀ x ∈ d, x = 0 ∨ x = 1)
    (h0 : 0 ∈ d) (h1 : 1 ∈ d) : d = [0, 1] ∨ d = [1, 0] := by
  match d, hnd, hsub, h0, h1 with
  | [], _, _, h0, _ => exact absurd h0 (by simp)
  | [a], _, hsub, h0, h1 =>
    simp only [List.mem_singleton] at h0 h1
    omega
  | a :: b :: c :: r, hnd, hsub, h0, h1 =>
    have ha := hsub a (by simp)
    have hb := hsub b (by simp)
    have hc := hsub c (by simp)
    simp only [List.nodup_cons, List.mem_cons] at hnd
    rcases ha with ha | ha <;> rcases hb with hb | hb <;> rcases hc with hc | hc <;>
      subst ha <;> subst hb <;> subst hc <;> simp at hnd
  | [a, b], hnd, hsub, h0, h1 =>
    have ha := hsub a (by simp)
    have hb := hsub b (by simp)
    simp only [List.nodup_cons, List.mem_singleton] at hnd
    rcases ha with ha | ha <;> rcases hb with hb | hb <;> subst ha <;> subst hb <;>
      simp_all

/-- C5: a more dataset of link items carrying only groups zero and one,
four items each, renders exactly the two groups in ascending key order,
each group listing its items in dataset order (the order-preserving
filter of the input), with no placeholder columns. -/
theorem more_dropdown_grouping (items : List AnyDropdownItem)
    (hall : ∀ it ∈ items, it.type = ItemType.link ∧
      (it.group = some 0 ∨ it.group = some 1))
    (h0 : (items.filter (fun it => it.group == some 0)).length = 4)
    (h1 : (items.filter (fun it => it.group == some 1)).length = 4) :
    (renderedMoreGroups items =
      [(0, items.filter (fun it => it.group == some 0)),
       (1, items.filter (fun it => it.group == some 1))]) ∧
    ((renderedMoreGroups items).length = 2) ∧
    (∀ p ∈ renderedMoreGroups items, p.2.length = 4) ∧
    (morePlaceholderCount items = 0) := by
  have hfilter : moreFilter items = items := by
    unfold moreFilter
    rw [List.filter_eq_self]
    intro it hit
    obtain ⟨htype, hgrp⟩ := hall it hit
    have : it.group.isSome := by rcases hgrp with h | h <;> simp [h]
    simp [htype, this]
  have hmem0 : 0 ∈ ((moreFilter items).filterMap (fun it => it.group)).dedup := by
    rw [hfilter, List.mem_dedup, List.mem_filterMap]
    have hne : items.filter (fun it => it.group == some 0) ≠ [] := by
      intro hcontra
      rw [hcontra] at h0
      simp at h0
    obtain ⟨x, hx⟩ := List.exists_mem_of_ne_nil _ hne
    obtain ⟨hxs, hxg⟩ := List.mem_filter.mp hx
    exact ⟨x, hxs, by simpa using hxg⟩
  have hmem1 : 1 ∈ ((moreFilter items).filterMap (fun it => it.group)).dedup := by
    rw [hfilter, List.mem_dedup, List.mem_filterMap]
    have hne : items.filter (fun it => it.group == some 1) ≠ [] := by
      intro hcontra
      rw [hcontra] at h1
      simp at h1
    obtain ⟨x, hx⟩ := List.exists_mem_of_ne_nil _ hne
    obtain ⟨hxs, hxg⟩ := List.mem_filter.mp hx
    exact ⟨x, hxs, by simpa using hxg⟩
  have hsub : ∀ x ∈ ((moreFilter items).filterMap (fun it => it.group)).dedup,
      x = 0 ∨ x = 1 := by
    intro x hx
    rw [hfilter, List.mem_dedup, List.mem_filterMap] at hx
    obtain ⟨it, hit, hg⟩ := hx
    rcases (hall it hit).2 with h | h <;> rw [h] at hg <;>
      simp at hg <;> omega
  have hkeys : groupKeys items = [0, 1] := by
    unfold groupKeys
    rcases nodup_two_keys _ (List.nodup_dedup _) hsub hmem0 hmem1 with h | h <;>
      rw [h] <;> decide
  have hg0 : groupedItems items 0 = items.filter (fun it => it.group == some 0) := by
    rw [groupedItems_eq_filter, hfilter]
  have hg1 : groupedItems items 1 = items.filter (fun it => it.group == some 1) := by
    rw [groupedItems_eq_filter, hfilter]
  have hrend : renderedMoreGroups items =
      [(0, items.filter (fun it => it.group == some 0)),
       (1, items.filter (fun it => it.group == some 1))] := by
    unfold renderedMoreGroups
    rw [hkeys]
    simp [hg0, hg1]
  refine ⟨hrend, by rw [hrend]; rfl, ?_, ?_⟩
  · intro p hp
    rw [hrend] at hp
    simp only [List.mem_cons, List.not_mem_nil, or_false] at hp
    rcases hp with hp | hp <;> subst hp
    · exact h0
    · exact h1
  · unfold morePlaceholderCount
    rw [hkeys]
    rfl

/-- Witness for the grouping claim at the concrete eight-item dataset. -/
theorem more_dropdown_grouping_witness :
    renderedMoreGroups moreScenarioItems =
      [(0, moreScenarioItems.filter (fun it => it.group == some 0)),
       (1, moreScenarioItems.filter (fun it => it.group == some 1))] :=
  (more_dropdown_grouping moreScenarioItems (by decide) (by decide) (by decide)).1

/-- C6 counterexample: selecting, inside an open submenu, a leaf whose
url is the placeholder hash closes the drawer and schedules the 300ms
reset, but the reset fires no navigation at all — refuting the claim
that every leaf selection invokes navigate exactly once with the url of
the leaf. -/
theorem mobile_leaf_placeholder_counterexample :
    (drawerOpenState.activeSubmenu ≠ "") ∧
    (placeholderLeaf.hasChildren = false) ∧
    (placeholderLeaf.back = false) ∧
    ((handleMobileItemClick [] [] [] drawerOpenState placeholderLeaf).state.mobileMenuOpen
        = false) ∧
    ((handleMobileItemClick [] [] [] drawerOpenState placeholderLeaf).delayed
        = [(mobileCloseResetDelay, .resetAndNavigate (some "#"))]) ∧
    ((runMobileDelayed
        (handleMobileItemClick [] [] [] drawerOpenState placeholderLeaf).state
        (.resetAndNavigate (some "#"))).2 = []) ∧
    ((runMobileDelayed
        (handleMobileItemClick [] [] [] drawerOpenState placeholderLeaf).state
        (.resetAndNavigate (some "#"))).2 ≠ ["#"]) :=
  ⟨by decide, rfl, rfl, rfl, rfl, rfl, by decide⟩

/-- C6 amended: selecting a leaf with a non-empty, non-placeholder url
while a category is active closes the drawer in the same synchronous
step without touching the category, the visible list or navigation, and
schedules exactly one action at the fixed 300ms delay whose expiry
clears the category and the visible list and navigates exactly once to
the url of the leaf. -/
theorem mobile_leaf_click_deferred
    (mb sc mo : List AnyDropdownItem) (s : MobileState)
    (item : MobileNavItemData) (u : String)
    (hcat : s.activeSubmenu ≠ "") (hback : item.back = false)
    (hleaf : item.hasChildren = false) (hurl : item.url = some u)
    (hu1 : u ≠ "") (hu2 : u ≠ "#") :
    ((handleMobileItemClick mb sc mo s item).state.mobileMenuOpen = false) ∧
    ((handleMobileItemClick mb sc mo s item).state.activeSubmenu = s.activeSubmenu) ∧
    ((handleMobileItemClick mb sc mo s item).state.submenuItems = s.submenuItems) ∧
    ((handleMobileItemClick mb sc mo s item).navCalls = []) ∧
    ((handleMobileItemClick mb sc mo s item).delayed
        = [(mobileCloseResetDelay, .resetAndNavigate (some u))]) ∧
    ((runMobileDelayed (handleMobileItemClick mb sc mo s item).state
        (.resetAndNavigate (some u))).1.activeSubmenu = "") ∧
    ((runMobileDelayed (handleMobileItemClick mb sc mo s item).state
        (.resetAndNavigate (some u))).1.submenuItems = []) ∧
    ((runMobileDelayed (handleMobileItemClick mb sc mo s item).state
        (.resetAndNavigate (some u))).2 = [u]) := by
  simp [handleMobileItemClick, hback, hleaf, hurl, runMobileDelayed, isRealUrl, hu1, hu2]

/-- Witness for the amended mobile leaf claim at a concrete leaf. -/
theorem mobile_leaf_click_deferred_witness :
    ((handleMobileItemClick [] [] [] drawerOpenState realLeaf).state.mobileMenuOpen = false) ∧
    ((runMobileDelayed (handleMobileItemClick [] [] [] drawerOpenState realLeaf).state
        (.resetAndNavigate (some "/leaf"))).2 = ["/leaf"]) :=
  ⟨(mobile_leaf_click_deferred [] [] [] drawerOpenState realLeaf "/leaf"
      (by decide) rfl rfl rfl (by decide) (by decide)).1,
   (mobile_leaf_click_deferred [] [] [] drawerOpenState realLeaf "/leaf"
      (by decide) rfl rfl rfl (by decide) (by decide)).2.2.2.2.2.2.2⟩

/-- C7 counterexample: the claimed invariant fails in two reachable
states — after a single itemLeave the timer is pending with no submenu
open, and after itemFocus followed by dropdownLeave the timer is
pending while the nav-item hover flag is still true. -/
theorem close_timer_invariant_counterexample :
    (dReach ([] : List DesktopNavItemData) (dstep [] ddInit .itemLeave).state) ∧
    ((dstep ([] : List DesktopNavItemData) ddInit .itemLeave).state.closeTimer = true) ∧
    ((dstep ([] : List DesktopNavItemData) ddInit .itemLeave).state.activeDropdown = "") ∧
    (dReach ([] : List DesktopNavItemData)
      (dstep [] (dstep [] ddInit .itemFocus).state .dropdownLeave).state) ∧
    ((dstep ([] : List DesktopNavItemData)
      (dstep [] ddInit .itemFocus).state .dropdownLeave).state.closeTimer = true) ∧
    ((dstep ([] : List DesktopNavItemData)
      (dstep [] ddInit .itemFocus).state .dropdownLeave).state.isHoveringNavItem = true) :=
  ⟨dReach.step .itemLeave dReach.init, rfl, rfl,
   dReach.step .dropdownLeave (dReach.step .itemFocus dReach.init), rfl, rfl⟩

/-- The closeDropdown handler never touches the timer or the hover
flags. -/
lemma closeDropdown_preserves (items : List DesktopNavItemData) (s : DState)
    (lbl : Option String) :
    (closeDropdown items s lbl).state.closeTimer = s.closeTimer ∧
    (closeDropdown items s lbl).state.isHoveringNavItem = s.isHoveringNavItem ∧
    (closeDropdown items s lbl).state.isHoveringDropdown = s.isHoveringDropdown := by
  unfold closeDropdown
  refine ⟨?_, ?_, ?_⟩ <;> (dsimp only; repeat' split) <;> rfl

/-- Every event preserves the weakened timer invariant: a pending close
timer implies at least one hover flag is false. -/
lemma dstep_preserves_timer_flag_inv (items : List DesktopNavItemData) (s : DState) (e : DEvent)
    (h : s.closeTimer = true → s.isHoveringNavItem = false ∨ s.isHoveringDropdown = false) :
    (dstep items s e).state.closeTimer = true →
      (dstep items s e).state.isHoveringNavItem = false ∨
      (dstep items s e).state.isHoveringDropdown = false := by
  cases e with
  | itemHover item => simp [dstep]
  | itemLeave => simp [dstep]
  | itemFocus => simp [dstep]
  | itemBlur => simp [dstep]
  | dropdownEnter => simp [dstep]
  | dropdownLeave => simp [dstep]
  | itemClick item =>
    by_cases hdd : item.hasDropdown = false
    · intro hp
      obtain ⟨h1, h2, h3⟩ := closeDropdown_preserves items s none
      simp only [dstep, handleDesktopItemClick, if_pos hdd] at hp ⊢
      rw [h1] at hp
      rw [h2, h3]
      exact h hp
    · simp [dstep, handleDesktopItemClick, if_neg hdd]
  | dropdownItemClick item =>
    intro hp
    simp only [dstep] at hp ⊢
    exact h hp
  | clickOutside =>
    by_cases ha : s.activeDropdown ≠ ""
    · intro hp
      simp only [dstep, if_pos ha] at hp ⊢
      exact h hp
    · intro hp
      simp only [dstep, if_neg ha] at hp ⊢
      exact h hp
  | closeKey lbl =>
    intro hp
    obtain ⟨h1, h2, h3⟩ := closeDropdown_preserves items s lbl
    simp only [dstep] at hp ⊢
    rw [h1] at hp
    rw [h2, h3]
    exact h hp
  | timerFire =>
    by_cases hp : s.closeTimer = true
    · by_cases hflags : s.isHoveringNavItem = false ∧ s.isHoveringDropdown = false
      · simp [dstep, hp, hflags]
      · simp [dstep, hp, if_neg hflags]
    · simp only [Bool.not_eq_true] at hp
      simp [dstep, hp]

/-- C7 amended: in every reachable state of the desktop controller, a
pending close timer implies at least one of the two hover flags is
false; the timer may however be pending while no submenu is open or
while the other hover flag is true, and expiry closes only when both
flags are false at that moment. -/
theorem close_timer_invariant_amended (items : List DesktopNavItemData) (s : DState)
    (hr : dReach items s) (hp : s.closeTimer = true) :
    s.isHoveringNavItem = false ∨ s.isHoveringDropdown = false := by
  induction hr with
  | init => simp [ddInit] at hp
  | step e hs ih => exact dstep_preserves_timer_flag_inv items _ e ih hp

/-- Witness for the amended timer invariant at the reachable state
after one itemLeave. -/
theorem close_timer_invariant_amended_witness :
    (dstep ([] : List DesktopNavItemData) ddInit .itemLeave).state.isHoveringNavItem = false ∨
    (dstep ([] : List DesktopNavItemData) ddInit .itemLeave).state.isHoveringDropdown = false :=
  close_timer_invariant_amended [] _ (dReach.step .itemLeave dReach.init) rfl

/-- C8: after a reachable itemLeave the desktop close timer is pending,
and the DesktopNavigation unmount cleanups leave it pending — while the
NavigationContainer unmount cleanup does clear its pending timer. -/
theorem desktop_unmount_timer_leak :
    (dReach ([] : List DesktopNavItemData) (dstep [] ddInit .itemLeave).state) ∧
    ((dstep ([] : List DesktopNavItemData) ddInit .itemLeave).state.closeTimer = true) ∧
    ((desktopUnmountCleanup
        (dstep ([] : List DesktopNavItemData) ddInit .itemLeave).state).closeTimer = true) ∧
    ((containerUnmountCleanup { closeTimer := true }).closeTimer = false) :=
  ⟨dReach.step .itemLeave dReach.init, rfl, rfl, rfl⟩

/-- C9: closing with a focus-return label that matches no entry still
clears the active key, schedules no focus move and no navigation, and
the controller keeps processing events — a following hover on an owner
opens it as usual. -/
theorem close_focus_lookup_silent (items : List DesktopNavItemData) (s : DState) (lbl : String)
    (hopen : s.activeDropdown ≠ "") (hlbl : lbl ≠ "")
    (hmiss : ∀ it ∈ items, toLowerJS it.label ≠ toLowerJS lbl) :
    ((closeDropdown items s (some lbl)).state = { s with activeDropdown := "" }) ∧
    ((closeDropdown items s (some lbl)).delayed = []) ∧
    ((closeDropdown items s (some lbl)).navCalls = []) ∧
    (∀ A : DesktopNavItemData, A.hasDropdown = true →
      (dstep items (closeDropdown items s (some lbl)).state
        (.itemHover A)).state.activeDropdown = toLowerJS A.label) := by
  have hfind : items.find? (fun it => toLowerJS it.label == toLowerJS lbl) = none := by
    rw [List.find?_eq_none]
    intro it hit
    simpa using hmiss it hit
  have hcd : closeDropdown items s (some lbl) =
      { state := { s with activeDropdown := "" }, navCalls := [], delayed := [] } := by
    unfold closeDropdown
    rw [if_neg hopen]
    simp only [if_pos hlbl]
    rw [hfind]
  rw [hcd]
  refine ⟨rfl, rfl, rfl, ?_⟩
  intro A hA
  simp [dstep, dropdownKeyOf, hA]

/-- Witness for the silent-lookup claim: an open state, closed with a
label matching no scenario entry. -/
theorem close_focus_lookup_silent_witness :
    (closeDropdown scenarioEntries lookupMissState (some "missing")).delayed = [] :=
  (close_focus_lookup_silent scenarioEntries lookupMissState "missing"
    (by decide) (by decide) (by decide)).2.1

/-- C10: every item produced by the category-to-submenu mapping, for
any datasets and any category, is a leaf (hasChildren false, not a
back item), so selecting it always takes the branch that closes the
drawer and schedules the deferred reset. -/
theorem submenu_items_always_leaves
    (mb sc mo : List AnyDropdownItem) (cat : String) (item : MobileNavItemData)
    (hmem : item ∈ getSubmenuItemsForCategory mb sc mo cat) :
    (item.hasChildren = false) ∧ (item.back = false) ∧
    (∀ s : MobileState,
      ((handleMobileItemClick mb sc mo s item).state.mobileMenuOpen = false) ∧
      ((handleMobileItemClick mb sc mo s item).delayed
          = [(mobileCloseResetDelay, .resetAndNavigate item.url)])) := by
  have hflags : item.hasChildren = false ∧ item.back = false := by
    unfold getSubmenuItemsForCategory at hmem
    dsimp only at hmem
    split at hmem
    · obtain ⟨x, hx, rfl⟩ := List.mem_map.mp (by simpa [mapSourceItems] using hmem)
      exact ⟨rfl, rfl⟩
    · split at hmem
      · obtain ⟨x, hx, rfl⟩ := List.mem_map.mp (by simpa [mapSourceItems] using hmem)
        exact ⟨rfl, rfl⟩
      · split at hmem
        · obtain ⟨x, hx, rfl⟩ := List.mem_map.mp hmem
          exact ⟨rfl, rfl⟩
        · simp at hmem
  refine ⟨hflags.1, hflags.2, ?_⟩
  intro s
  simp [handleMobileItemClick, hflags.1, hflags.2]

/-- Witness for the leaves-only claim at a concrete one-model dataset. -/
theorem submenu_items_always_leaves_witness :
    (mappedM1.hasChildren = false) ∧
    ((handleMobileItemClick [modelM1] [] [] mobileInit mappedM1).state.mobileMenuOpen
        = false) :=
  ⟨(submenu_items_always_leaves [modelM1] [] [] "Motorbikes" mappedM1 (by decide)).1,
   ((submenu_items_always_leaves [modelM1] [] [] "Motorbikes" mappedM1
      (by decide)).2.2 mobileInit).1⟩
